import Mathlib

/-!
# Verification of ContentWise-AI quiz, social-post and RAG services

Shallow embedding of the pure logic of:

* `services/quiz_generator.py` (`QuizGeneratorService`):
  quiz-response parsing, fallback quiz construction and score calculation;
* `services/social_media_generator.py` (`SocialMediaGenerator._generate_post`,
  `_extract_hashtags`);
* `services/rag_service.py` (`RAGService`): the session-state machine of
  `create_vector_database`, `query_video_content`, `get_database_stats`
  and `cleanup_safely`;
* `utils/helpers.py` (`QuizUtils.shuffle_quiz_options`);
* `models/video_processor.py` (the `Quiz`, `QuizQuestion` and
  `SocialMediaPost` dataclasses; `Quiz.__post_init__` forces
  `total_questions = len(questions)`).

Conventions of the embedding:

* Python strings are Lean `String`s; string algorithms are written over
  `List Char` (one element per code point, matching Python's `len` and
  indexing).
* Python `int` is `ℤ`; a value that may be `None` is an `Option`.
  Python `==` between possibly-`None` values is `Option` equality
  (`None == None` is `True`, `None == int` is `False`).
* Calls into external libraries (the LLM chain, Chroma, the filesystem)
  are modelled by explicit outcome parameters (`Except`/`Bool` oracles or
  an abstract function such as the text splitter): the theorems quantify
  over every outcome.  Python exceptions raised by those calls are the
  `.error`/`false` outcomes; all embedded functions are total, mirroring
  the `try/except` wrappers in the source that never let an exception
  escape.
* `random.shuffle` is modelled by an arbitrary function `perm` together
  with the hypothesis that its output is a permutation of its input,
  which is the contract of `random.shuffle`.
* Python's `round(x, 1)` on a numeric value is modelled exactly on `ℚ` as
  round-half-to-even in the tenths digit (`pyRound1`).
-/

/-! ## Python string primitives -/

/-- Python whitespace for `str.strip` (ASCII part: space, tab, LF, CR, VT, FF). -/
def pyIsSpace (c : Char) : Bool :=
  c = ' ' || c = '\t' || c = '\n' || c = '\r' || c = '\x0b' || c = '\x0c'

/-- Python `str.strip()`: drop leading and trailing whitespace. -/
def pyStrip (cs : List Char) : List Char :=
  ((cs.dropWhile pyIsSpace).reverse.dropWhile pyIsSpace).reverse

/-- Python `str.split(sep)` for a one-character separator: always returns a
non-empty list of segments; adjacent separators give empty segments. -/
def splitOnChar (sep : Char) : List Char → List (List Char)
  | [] => [[]]
  | c :: rest =>
    if c = sep then
      [] :: splitOnChar sep rest
    else
      match splitOnChar sep rest with
      | s :: ss => (c :: s) :: ss
      | [] => [[c]]

/-- Python `\w` word character (ASCII part) used by `re.findall(r'#\w+', ...)`. -/
def isWordChar (c : Char) : Bool :=
  c.isAlphanum || c = '_'

/-! ## Data model (`models/video_processor.py`) -/

/-- `QuizQuestion` dataclass.  `correct_answer` is declared `int` but, being
Python, can also hold `None` (e.g. the `new_correct_answer = None` initial
value in `QuizUtils.shuffle_quiz_options`), hence `Option ℤ`. -/
structure QuizQuestion where
  question : String
  options : List String
  correct_answer : Option ℤ
  explanation : String := ""
deriving Repr, DecidableEq

/-- `Quiz` dataclass. -/
structure Quiz where
  title : String
  questions : List QuizQuestion
  total_questions : ℕ
deriving Repr, DecidableEq

/-- The `Quiz(...)` constructor: `__post_init__` overwrites whatever
`total_questions` was passed with `len(self.questions)`. -/
def mkQuiz (title : String) (questions : List QuizQuestion) (_total_passed : ℕ) : Quiz :=
  { title := title, questions := questions, total_questions := questions.length }

/-- `SocialMediaPost` dataclass. -/
structure SocialMediaPost where
  platform : String
  content : String
  hashtags : List String
  character_count : ℕ
deriving Repr, DecidableEq

/-! ## Quiz response parsing (`QuizGeneratorService._parse_quiz_response`) -/

/-- Length of a match of the regex `QUESTION \d+:` starting at the head of
`cs`, when there is one: the literal `"QUESTION "`, then a maximal non-empty
digit run, then `':'`. -/
def markerLen (cs : List Char) : Option ℕ :=
  if ['Q', 'U', 'E', 'S', 'T', 'I', 'O', 'N', ' '].isPrefixOf cs then
    let rest := cs.drop 9
    let ds := rest.takeWhile Char.isDigit
    if ds ≠ [] ∧ (rest.drop ds.length).head? = some ':' then
      some (9 + ds.length + 1)
    else
      none
  else
    none

/-- `re.split(r'QUESTION \d+:', response)`: leftmost non-overlapping matches
split the string into the segments between them (`acc` holds the current
segment, reversed).  `fuel` only forces structural recursion: a match
consumes at least 10 characters and a non-match one, so the initial
`fuel = cs.length` never runs out (the `0` case is unreachable). -/
def splitMarkersAux : ℕ → List Char → List Char → List (List Char)
  | _, [], acc => [acc.reverse]
  | 0, cs, acc => [acc.reverse ++ cs]
  | fuel + 1, c :: rest, acc =>
    match markerLen (c :: rest) with
    | some n => acc.reverse :: splitMarkersAux fuel ((c :: rest).drop n) []
    | none => splitMarkersAux fuel rest (c :: acc)

def splitMarkers (cs : List Char) : List (List Char) :=
  splitMarkersAux cs.length cs []

/-- An option line of a block: `line.startswith(('A)', 'B)', 'C)', 'D)'))`,
giving `line[2:].strip()`. -/
def optionLine (line : List Char) : Option (List Char) :=
  if ['A', ')'].isPrefixOf line ∨ ['B', ')'].isPrefixOf line ∨
      ['C', ')'].isPrefixOf line ∨ ['D', ')'].isPrefixOf line then
    some (pyStrip (line.drop 2))
  else
    none

/-- `correct_letter in ['A','B','C','D']` mapped to
`ord(correct_letter) - ord('A')`. -/
def letterIndex (letter : List Char) : Option ℤ :=
  if letter = ['A'] then some 0
  else if letter = ['B'] then some 1
  else if letter = ['C'] then some 2
  else if letter = ['D'] then some 3
  else none

/-- One step of the `for line in lines: if line.startswith('CORRECT:') ...`
loop: a line with a valid letter overwrites the accumulator, anything else
leaves it. -/
def correctStep (acc : Option ℤ) (line : List Char) : Option ℤ :=
  if ['C', 'O', 'R', 'R', 'E', 'C', 'T', ':'].isPrefixOf line then
    match letterIndex ((pyStrip ((splitOnChar ':' line).getD 1 [])).map Char.toUpper) with
    | some k => some k
    | none => acc
  else
    acc

def correctFold (lines : List (List Char)) : Option ℤ :=
  lines.foldl correctStep none

/-- Parse one block produced by the `QUESTION \d+:` split: strip it, split
into non-empty stripped lines, require at least 6 lines, collect options from
`lines[1:5]`, scan all lines for `CORRECT:`, and accept only with exactly 4
options and a recognised correct letter. -/
def parseBlock (block : List Char) : Option QuizQuestion :=
  let lines := (((splitOnChar '\n' (pyStrip block)).map pyStrip).filter (· ≠ []))
  if lines.length < 6 then
    none
  else
    let question_text := lines.headD []
    let options := ((lines.drop 1).take 4).filterMap optionLine
    let correct := correctFold lines
    if options.length = 4 ∧ correct.isSome then
      some { question := String.mk question_text
             options := options.map String.mk
             correct_answer := correct
             explanation := "" }
    else
      none

/-- The `for i, block in enumerate(question_blocks)` loop with
`if i >= 5: break`: the index advances on every block, accepted or not. -/
def parseBlocksLoop : List (List Char) → ℕ → List QuizQuestion
  | [], _ => []
  | b :: bs, i =>
    if 5 ≤ i then
      []
    else
      match parseBlock b with
      | some q => q :: parseBlocksLoop bs (i + 1)
      | none => parseBlocksLoop bs (i + 1)

/-- `QuizGeneratorService._create_fallback_questions`. -/
def create_fallback_questions : List QuizQuestion :=
  [ { question := "What was the main topic of this video?"
      options := ["Educational content", "Entertainment", "News update", "Product review"]
      correct_answer := some 0
      explanation := "Based on the video analysis" },
    { question := "What type of content was primarily discussed?"
      options := ["Technical information", "Personal stories", "Historical facts", "General knowledge"]
      correct_answer := some 0
      explanation := "Inferred from video content" },
    { question := "What was the overall tone of the video?"
      options := ["Informative", "Casual", "Formal", "Entertaining"]
      correct_answer := some 0
      explanation := "Based on content analysis" } ]

/-- `QuizGeneratorService._parse_quiz_response` (returning the `questions`
list of the `{"questions": ...}` dict): split on the markers, drop the text
before the first marker, parse at most the first 5 blocks and fall back to
the fixed questions when none parse. -/
def parse_quiz_response (response : String) : List QuizQuestion :=
  let question_blocks := (splitMarkers response.data).drop 1
  let questions := parseBlocksLoop question_blocks 0
  if questions = [] then create_fallback_questions else questions

/-- The quiz title expression `f"Quiz: {title}" if title else "Video Quiz"`. -/
def quizTitle (title : String) : String :=
  if title ≠ "" then "Quiz: " ++ title else "Video Quiz"

/-- `QuizGeneratorService._create_fallback_quiz`. -/
def create_fallback_quiz (title : String) : Quiz :=
  mkQuiz (quizTitle title) create_fallback_questions 3

/-- `QuizGeneratorService.generate_quiz`.  The LLM chain call is external:
its outcome is the parameter `llm` (`.ok response` for a returned string,
`.error ()` for any exception, which the `except` branch turns into the
fallback quiz).  `transcript` and `num_questions` only feed the prompt. -/
def generate_quiz (_transcript title : String) (_num_questions : ℕ)
    (llm : Except Unit String) : Quiz :=
  match llm with
  | .ok response =>
    let questions := parse_quiz_response response
    mkQuiz (quizTitle title) questions questions.length
  | .error _ => create_fallback_quiz title

/-! ## Score calculation (`QuizGeneratorService.calculate_score`) -/

/-- One per-question entry of the `results` list built by `calculate_score`. -/
structure ScoreEntry where
  question_index : ℕ
  question : String
  user_answer : Option ℤ
  correct_answer : Option ℤ
  is_correct : Bool
  options : List String
deriving Repr, DecidableEq

/-- The dict returned by `calculate_score`. -/
structure ScoreResult where
  score : ℕ
  total : ℕ
  percentage : ℚ
  passed : Bool
  results : List ScoreEntry
deriving Repr, DecidableEq

/-- `user_answers` is a Python dict whose keys are only ever read at
`str(i)` for a question index `i`; it is modelled as an association list
keyed by the index.  `user_answers.get(str(i))` is `lookupAnswer`. -/
def lookupAnswer (user_answers : List (ℕ × ℤ)) (i : ℕ) : Option ℤ :=
  (user_answers.find? (fun p => p.1 == i)).map (·.2)

/-- The `for i, question in enumerate(quiz.questions)` loop of
`calculate_score`: returns `(correct_count, results)`. -/
def scoreLoop (user_answers : List (ℕ × ℤ)) : ℕ → List QuizQuestion → ℕ × List ScoreEntry
  | _, [] => (0, [])
  | i, question :: rest =>
    let user_answer := lookupAnswer user_answers i
    let is_correct := decide (user_answer = question.correct_answer)
    let r := scoreLoop user_answers (i + 1) rest
    ((if is_correct then 1 else 0) + r.1,
      { question_index := i
        question := question.question
        user_answer := user_answer
        correct_answer := question.correct_answer
        is_correct := is_correct
        options := question.options } :: r.2)

/-- Round half to even, Python's rounding mode for `round`. -/
def roundHalfEven (x : ℚ) : ℤ :=
  let f := ⌊x⌋
  let d := x - (f : ℚ)
  if d < 1 / 2 then f
  else if 1 / 2 < d then f + 1
  else if f % 2 = 0 then f else f + 1

/-- Python `round(x, 1)`: round half to even in the tenths digit. -/
def pyRound1 (x : ℚ) : ℚ :=
  ((roundHalfEven (x * 10) : ℤ) : ℚ) / 10

/-- `QuizGeneratorService.calculate_score`.  An empty (falsy) answers dict or
an empty question list short-circuits to the zero result; otherwise the loop
counts answers equal to the correct one (`None` counting as a wrong answer),
`passed` compares the unrounded percentage with 60 and the reported
`percentage` is `round(..., 1)`. -/
def calculate_score (user_answers : List (ℕ × ℤ)) (quiz : Quiz) : ScoreResult :=
  if user_answers.isEmpty || quiz.questions.isEmpty then
    { score := 0
      total := quiz.questions.length
      percentage := 0
      passed := false
      results := [] }
  else
    let r := scoreLoop user_answers 0 quiz.questions
    let total_questions := quiz.questions.length
    let percentage : ℚ :=
      if 0 < total_questions then (r.1 : ℚ) / (total_questions : ℚ) * 100 else 0
    { score := r.1
      total := total_questions
      percentage := pyRound1 percentage
      passed := decide (60 ≤ percentage)
      results := r.2 }

/-! ## Social media posts (`SocialMediaGenerator`) -/

/-- `re.findall(r'#\w+', content)`: every `'#'` followed by a non-empty
maximal run of word characters, scanning left to right, continuing after
each match.  `fuel` only forces structural recursion; the initial
`fuel = cs.length` never runs out. -/
def extractHashtagsAux : ℕ → List Char → List String
  | _, [] => []
  | 0, _ => []
  | fuel + 1, c :: rest =>
    if c = '#' then
      let run := rest.takeWhile isWordChar
      if run.isEmpty then
        extractHashtagsAux fuel rest
      else
        String.mk ('#' :: run) :: extractHashtagsAux fuel (rest.drop run.length)
    else
      extractHashtagsAux fuel rest

/-- `SocialMediaGenerator._extract_hashtags`. -/
def extract_hashtags (content : String) : List String :=
  extractHashtagsAux content.data.length content.data

/-- `SocialMediaGenerator._generate_post`.  The LLM chain call is external:
`llm` is its outcome (`.ok content`, or `.error e` for any exception, which
the `except` branch turns into the fixed fallback post with
`character_count=0`). -/
def generate_post (platform : String) (llm : Except String String) : SocialMediaPost :=
  match llm with
  | .ok content =>
    { platform := platform
      content := content
      hashtags := extract_hashtags content
      character_count := content.length }
  | .error _ =>
    { platform := platform
      content := "Unable to generate " ++ platform ++ " post"
      hashtags := []
      character_count := 0 }

/-- `SocialMediaGenerator.generate_linkedin_post`: builds the LinkedIn
prompt (external) and delegates to `_generate_post("linkedin", ...)`. -/
def generate_linkedin_post (_summary : String) (_key_topics : List String)
    (_video_url : String) (llm : Except String String) : SocialMediaPost :=
  generate_post "linkedin" llm

/-- `SocialMediaGenerator.generate_twitter_post`. -/
def generate_twitter_post (_summary : String) (_key_topics : List String)
    (_video_url : String) (llm : Except String String) : SocialMediaPost :=
  generate_post "twitter" llm

/-- `SocialMediaGenerator.generate_instagram_post`. -/
def generate_instagram_post (_summary : String) (_key_topics : List String)
    (_video_url : String) (llm : Except String String) : SocialMediaPost :=
  generate_post "instagram" llm

/-- `SocialMediaGenerator.generate_facebook_post`. -/
def generate_facebook_post (_summary : String) (_key_topics : List String)
    (_video_url : String) (llm : Except String String) : SocialMediaPost :=
  generate_post "facebook" llm

/-! ## Option shuffling (`QuizUtils.shuffle_quiz_options`) -/

/-- `[(option, i == question.correct_answer) for i, option in
enumerate(question.options)]`, with `i == None` being `False`. -/
def optionsWithCorrectness : List String → ℕ → Option ℤ → List (String × Bool)
  | [], _, _ => []
  | o :: rest, i, correct =>
    (o, decide (correct = some (i : ℤ))) :: optionsWithCorrectness rest (i + 1) correct

/-- The `for i, (option, is_correct) in enumerate(options_with_correctness)`
loop: collects the shuffled options and the index of the last tuple flagged
correct (`new_correct_answer` starts as `None` and each flagged tuple
overwrites it). -/
def extractShuffled : List (String × Bool) → ℕ → List String × Option ℕ
  | [], _ => ([], none)
  | (o, is_correct) :: rest, i =>
    let r := extractShuffled rest (i + 1)
    (o :: r.1,
      match r.2 with
      | some j => some j
      | none => if is_correct then some i else none)

/-- The per-question body of `QuizUtils.shuffle_quiz_options`.  `perm` is the
`random.shuffle` call: an arbitrary reordering of the tagged option list
(the theorems assume its output is a permutation of its input, which is
`random.shuffle`'s contract). -/
def shuffle_question (perm : List (String × Bool) → List (String × Bool))
    (question : QuizQuestion) : QuizQuestion :=
  let options_with_correctness := optionsWithCorrectness question.options 0 question.correct_answer
  let shuffled := perm options_with_correctness
  let r := extractShuffled shuffled 0
  { question := question.question
    options := r.1
    correct_answer := r.2.map (fun i => (i : ℤ))
    explanation := question.explanation }

/-- `QuizUtils.shuffle_quiz_options` (the `seed` argument only seeds the
PRNG behind `perm`). -/
def shuffle_quiz_options (perm : List (String × Bool) → List (String × Bool))
    (quiz : Quiz) : Quiz :=
  let shuffled_questions := quiz.questions.map (shuffle_question perm)
  mkQuiz quiz.title shuffled_questions shuffled_questions.length

/-! ## RAG session state (`services/rag_service.py`) -/

/-- The session attributes of `RAGService` that the claims observe.  The
vector store is abstracted to the list of indexed chunks; the client, chain
and collection to presence flags. -/
structure RAGState where
  temp_dir : Option String
  client : Option Unit
  vectorstore : Option (List String)
  retrieval_qa_chain : Option Unit
  collection : Option Unit
deriving Repr, DecidableEq

/-- The state after a successful `RAGService.__init__`: temp dir and client
exist, no vector store, no retrieval chain, no collection. -/
def RAGState.init (temp_dir : String) : RAGState :=
  { temp_dir := some temp_dir
    client := some ()
    vectorstore := none
    retrieval_qa_chain := none
    collection := none }

/-- `RAGService.create_vector_database`.  `split_text` is
`self.text_splitter.split_text` (external `RecursiveCharacterTextSplitter`);
`chromaOk` and `chromaRetryOk` are the outcomes of the first
`Chroma.from_documents` attempt and its retry.  Empty chunk list: warn and
return `False` with the state untouched.  Both store attempts raising is
caught by the outer `except`, returning `False` with the state untouched;
otherwise the store and the `RetrievalQA` chain are installed. -/
def create_vector_database (split_text : String → List String)
    (chromaOk chromaRetryOk : Bool) (s : RAGState)
    (transcript _video_title : String) : Bool × RAGState :=
  let chunks := split_text transcript
  if chunks.isEmpty then
    (false, s)
  else if chromaOk || chromaRetryOk then
    (true, { s with vectorstore := some chunks, retrieval_qa_chain := some () })
  else
    (false, s)

/-- A `Document` coming back from the retriever: `page_content` plus the
`chunk_index` / `video_title` metadata (absent keys are the `.get` defaults). -/
structure SourceDoc where
  page_content : String
  chunk_index : Option ℕ
  video_title : Option String
deriving Repr, DecidableEq

/-- The `for i, doc in enumerate(source_docs, 1)` loop of
`RAGService._format_source_documents`. -/
def formatSourcesLoop : ℕ → List SourceDoc → List String
  | _, [] => []
  | i, doc :: rest =>
    let chunk_info := match doc.chunk_index with
      | some n => toString n
      | none => "unknown"
    let video_title := doc.video_title.getD "Unknown Video"
    let content_preview :=
      if 200 < doc.page_content.data.length then
        String.mk (doc.page_content.data.take 200) ++ "..."
      else
        doc.page_content
    ("Source " ++ toString i ++ " (Chunk " ++ chunk_info ++ " from '" ++ video_title
        ++ "'):\n" ++ content_preview ++ "\n") :: formatSourcesLoop (i + 1) rest

/-- `RAGService._format_source_documents`. -/
def format_source_documents (source_docs : List SourceDoc) : String :=
  if source_docs.isEmpty then
    "No source documents found."
  else
    String.intercalate "\n" (formatSourcesLoop 1 source_docs)

/-- `RAGService.query_video_content`.  With no retrieval chain the fixed
sentinel is returned before anything external is touched; otherwise `chain`
is the outcome of invoking the chain (`.ok (answer, source_documents)`, or
`.error e` which the `except` branch maps to the error string). -/
def query_video_content (s : RAGState)
    (chain : Except String (String × List SourceDoc))
    (_query : String) (return_sources : Bool) : String :=
  if s.retrieval_qa_chain.isNone then
    "No video content available for querying. Please analyze a video first."
  else
    match chain with
    | .ok result =>
      if return_sources then
        result.1 ++ "\n\n**Sources:**\n" ++ format_source_documents result.2
      else
        result.1
    | .error e => "Error processing your query: " ++ e

/-- The dict returned by `RAGService.get_database_stats`:
`has_retrieval_chain` is `none` when the key is absent (the
"No database created" branch). -/
structure DBStats where
  status : String
  chunks : ℕ
  has_retrieval_chain : Option Bool
deriving Repr, DecidableEq

/-- `RAGService.get_database_stats`: with no vector store report
`{"status": "No database created", "chunks": 0}`; otherwise the collection
count (the length of the indexed chunk list) and the chain flag. -/
def get_database_stats (s : RAGState) : DBStats :=
  match s.vectorstore with
  | none => { status := "No database created", chunks := 0, has_retrieval_chain := none }
  | some chunks =>
    { status := "Active"
      chunks := chunks.length
      has_retrieval_chain := some s.retrieval_qa_chain.isSome }

/-- `RAGService.cleanup_safely`.  `deleteOk`, `resetOk` and `rmtreeOk` are
the outcomes of `client.delete_collection`, `client.reset` and the
`shutil.rmtree` retry loop; the first two are caught with no effect on the
session attributes (`client` is cleared in a `finally`), a successful
`rmtree` clears `temp_dir`, and the method ends by clearing the store, the
chain, the client and the collection.  No path raises. -/
def cleanup_safely (_deleteOk _resetOk rmtreeOk : Bool) (s : RAGState) : RAGState :=
  let s1 : RAGState := { s with vectorstore := none }
  let s2 : RAGState := { s1 with client := none }
  let s3 : RAGState :=
    if s2.temp_dir.isSome && rmtreeOk then { s2 with temp_dir := none } else s2
  { s3 with
    vectorstore := none
    retrieval_qa_chain := none
    client := none
    collection := none }

/-- `RAGService.cleanup` (alias for `cleanup_safely`). -/
def cleanup (deleteOk resetOk rmtreeOk : Bool) (s : RAGState) : RAGState :=
  cleanup_safely deleteOk resetOk rmtreeOk s

/-! ## Concrete instances used by counterexamples and witnesses -/

/-- A well-formed sample question. -/
def sampleQuestion : QuizQuestion :=
  { question := "q", options := ["a", "b", "c", "d"], correct_answer := some 0,
    explanation := "" }

/-- A one-question quiz. -/
def sampleQuiz : Quiz := mkQuiz "T" [sampleQuestion] 1

/-- A 402-question quiz: with 241 correct answers the exact percentage is
`24100/402 = 59.9502...`, which `round(..., 1)` reports as `60.0` while
`passed` (computed on the unrounded value) is `False`. -/
def roundingQuiz : Quiz := mkQuiz "T" (List.replicate 402 sampleQuestion) 402

/-- Answers `str(i) ↦ 0` for `i < 241`: each matches `sampleQuestion`'s
correct answer, so exactly 241 of the 402 questions score. -/
def roundingAnswers : List (ℕ × ℤ) := (List.range 241).map (fun i => (i, 0))

/-! ## Theorems -/

/-- C6: parsing the single well-formed block
`"QUESTION 1: Q?\nA) a\nB) b\nC) c\nD) d\nCORRECT: C"` yields exactly one
question: text `"Q?"` (the text after the marker), the four options with
their two-character `A)`–`D)` prefixes stripped, and the `CORRECT` letter
`C` mapped to zero-based index 2 (`some 2` in the `Option ℤ` encoding of
the `int` field). -/
theorem parse_single_block_c6 :
    parse_quiz_response "QUESTION 1: Q?\nA) a\nB) b\nC) c\nD) d\nCORRECT: C" =
      [{ question := "Q?", options := ["a", "b", "c", "d"], correct_answer := some 2,
         explanation := "" }] := by
  decide

/-- C5: for an empty `user_answers` dict and a quiz with a non-empty
question list, `calculate_score` returns `score=0`,
`total=len(quiz.questions)`, `percentage=0`, `passed=False` (and an empty
results list), with no division by zero: the falsy-dict guard
short-circuits before any division. -/
theorem calculate_score_empty_answers (quiz : Quiz) (_h : quiz.questions ≠ []) :
    calculate_score [] quiz =
      { score := 0, total := quiz.questions.length, percentage := 0, passed := false,
        results := [] } := by
  unfold calculate_score
  simp

/-- Witness for C5 at the concrete one-question quiz. -/
theorem calculate_score_empty_answers_witness :
    sampleQuiz.questions ≠ [] ∧
      calculate_score [] sampleQuiz =
        { score := 0, total := sampleQuiz.questions.length, percentage := 0,
          passed := false, results := [] } :=
  ⟨by decide, calculate_score_empty_answers sampleQuiz (by decide)⟩

/-- C7: `create_vector_database` on the empty transcript returns `False`
(the splitter produces no chunks, so the guard fires before any external
call or state change) and leaves the freshly-initialised session with no
vector store and no retrieval chain.  All exception outcomes of the
external store creation are quantified over. -/
theorem create_vector_database_empty_transcript (split_text : String → List String)
    (chromaOk chromaRetryOk : Bool) (temp video_title : String)
    (hsplit : split_text "" = []) :
    create_vector_database split_text chromaOk chromaRetryOk (RAGState.init temp) ""
        video_title = (false, RAGState.init temp) ∧
      (RAGState.init temp).vectorstore = none ∧
      (RAGState.init temp).retrieval_qa_chain = none := by
  unfold create_vector_database
  rw [hsplit]
  exact ⟨rfl, rfl, rfl⟩

/-- Witness for C7 with a concrete splitter that maps `""` to no chunks. -/
theorem create_vector_database_empty_transcript_witness :
    (fun (_ : String) => ([] : List String)) "" = [] ∧
      (create_vector_database (fun _ => []) true true (RAGState.init "tmp") "" "v"
          = (false, RAGState.init "tmp") ∧
        (RAGState.init "tmp").vectorstore = none ∧
        (RAGState.init "tmp").retrieval_qa_chain = none) :=
  ⟨rfl, create_vector_database_empty_transcript (fun _ => []) true true "tmp" "v" rfl⟩

/-- C8: with no retrieval chain installed (any state where
`retrieval_qa_chain` is `None`, in particular before
`create_vector_database` has succeeded), `query_video_content` returns the
fixed "not available" sentinel for every query, every `return_sources`
flag and every external outcome — the guard returns before anything that
could raise. -/
theorem query_before_ready (s : RAGState)
    (chain : Except String (String × List SourceDoc)) (q : String)
    (return_sources : Bool) (h : s.retrieval_qa_chain = none) :
    query_video_content s chain q return_sources =
      "No video content available for querying. Please analyze a video first." := by
  unfold query_video_content
  rw [h]
  rfl

/-- Witness for C8 at the freshly-initialised state. -/
theorem query_before_ready_witness :
    (RAGState.init "tmp").retrieval_qa_chain = none ∧
      query_video_content (RAGState.init "tmp") (Except.error "down") "what?" true =
        "No video content available for querying. Please analyze a video first." :=
  ⟨rfl, query_before_ready (RAGState.init "tmp") (Except.error "down") "what?" true rfl⟩

/-- C9: `cleanup()` twice in a row, from any session state and under every
combination of external outcomes (collection deletion, client reset,
directory removal — each a caught exception when `false`), is total (the
embedding of the `try/except`-wrapped teardown raises on no path) and
leaves `get_stats()` reporting the no-database result with zero chunks. -/
theorem cleanup_twice_reentrant (d1 r1 t1 d2 r2 t2 : Bool) (s : RAGState) :
    get_database_stats (cleanup d2 r2 t2 (cleanup d1 r1 t1 s)) =
      { status := "No database created", chunks := 0, has_retrieval_chain := none } := by
  unfold cleanup cleanup_safely get_database_stats
  simp

/-- C4 counterexample: on the failure path `generate_linkedin_post` returns
`character_count = 0` while its content is the 32-character string
`"Unable to generate linkedin post"`, so
`character_count = length(content)` fails. -/
theorem social_post_character_count_cex :
    (generate_linkedin_post "" [] "" (Except.error "boom")).character_count ≠
      (generate_linkedin_post "" [] "" (Except.error "boom")).content.length := by
  decide

/-- C4 (amended): on the success path every post of the four generators
satisfies `character_count = length(content)`; on the failure path the
content is the fixed `"Unable to generate {platform} post"` message with
`character_count = 0` (and no hashtags). -/
theorem social_post_character_count (summary : String) (key_topics : List String)
    (video_url : String) (content err : String) :
    (generate_linkedin_post summary key_topics video_url (Except.ok content)).character_count
        = (generate_linkedin_post summary key_topics video_url (Except.ok content)).content.length ∧
    (generate_twitter_post summary key_topics video_url (Except.ok content)).character_count
        = (generate_twitter_post summary key_topics video_url (Except.ok content)).content.length ∧
    (generate_instagram_post summary key_topics video_url (Except.ok content)).character_count
        = (generate_instagram_post summary key_topics video_url (Except.ok content)).content.length ∧
    (generate_facebook_post summary key_topics video_url (Except.ok content)).character_count
        = (generate_facebook_post summary key_topics video_url (Except.ok content)).content.length ∧
    (generate_linkedin_post summary key_topics video_url (Except.error err)).character_count = 0 ∧
    (generate_linkedin_post summary key_topics video_url (Except.error err)).content
        = "Unable to generate linkedin post" ∧
    (generate_twitter_post summary key_topics video_url (Except.error err)).character_count = 0 ∧
    (generate_twitter_post summary key_topics video_url (Except.error err)).content
        = "Unable to generate twitter post" ∧
    (generate_instagram_post summary key_topics video_url (Except.error err)).character_count = 0 ∧
    (generate_instagram_post summary key_topics video_url (Except.error err)).content
        = "Unable to generate instagram post" ∧
    (generate_facebook_post summary key_topics video_url (Except.error err)).character_count = 0 ∧
    (generate_facebook_post summary key_topics video_url (Except.error err)).content
        = "Unable to generate facebook post" := by
  refine ⟨rfl, rfl, rfl, rfl, rfl, ?_, rfl, ?_, rfl, ?_, rfl, ?_⟩ <;> rfl

/-! ### Score calculation lemmas -/

theorem pyRound1_zero : pyRound1 0 = 0 := by
  norm_num [pyRound1, roundHalfEven]

theorem scoreLoop_count_le (ua : List (ℕ × ℤ)) :
    ∀ (qs : List QuizQuestion) (i : ℕ), (scoreLoop ua i qs).1 ≤ qs.length
  | [], _ => by simp [scoreLoop]
  | q :: rest, i => by
    have h := scoreLoop_count_le ua rest (i + 1)
    simp only [scoreLoop, List.length_cons]
    split <;> omega

theorem scoreLoop_results_get? (ua : List (ℕ × ℤ)) :
    ∀ (qs : List QuizQuestion) (i j : ℕ),
      (scoreLoop ua i qs).2.get? j = (qs.get? j).map (fun q =>
        { question_index := i + j
          question := q.question
          user_answer := lookupAnswer ua (i + j)
          correct_answer := q.correct_answer
          is_correct := decide (lookupAnswer ua (i + j) = q.correct_answer)
          options := q.options })
  | [], i, j => by simp [scoreLoop]
  | q :: rest, i, 0 => by simp [scoreLoop]
  | q :: rest, i, j + 1 => by
    have h := scoreLoop_results_get? ua rest (i + 1) j
    have hij : i + 1 + j = i + (j + 1) := by omega
    simp only [scoreLoop, List.get?_cons_succ, h, hij]

theorem scoreLoop_results_length (ua : List (ℕ × ℤ)) :
    ∀ (qs : List QuizQuestion) (i : ℕ), (scoreLoop ua i qs).2.length = qs.length
  | [], _ => by simp [scoreLoop]
  | q :: rest, i => by
    have h := scoreLoop_results_length ua rest (i + 1)
    simp [scoreLoop, h]

/-- Closed form of `calculate_score`: the falsy guard returns the zero
result, otherwise the non-empty question list makes `total_questions > 0`,
so the division guard is moot. -/
theorem calculate_score_eq (ua : List (ℕ × ℤ)) (quiz : Quiz) :
    calculate_score ua quiz =
      if ua.isEmpty || quiz.questions.isEmpty then
        { score := 0, total := quiz.questions.length, percentage := 0, passed := false,
          results := [] }
      else
        { score := (scoreLoop ua 0 quiz.questions).1
          total := quiz.questions.length
          percentage := pyRound1
            (((scoreLoop ua 0 quiz.questions).1 : ℚ) / (quiz.questions.length : ℚ) * 100)
          passed := decide
            (60 ≤ ((scoreLoop ua 0 quiz.questions).1 : ℚ) / (quiz.questions.length : ℚ) * 100)
          results := (scoreLoop ua 0 quiz.questions).2 } := by
  unfold calculate_score
  split
  · rfl
  · rename_i h
    have hq : 0 < quiz.questions.length := by
      rcases hl : quiz.questions with - | ⟨a, l⟩
      · simp [hl] at h
      · simp [hl]
    simp only [if_pos hq]

set_option maxRecDepth 100000 in
/-- C2 counterexample: with 241 of 402 questions answered correctly the
exact percentage is `59.9502...`, so the reported `percentage` field is
`round(..., 1) = 60.0` while `passed` — which the code computes from the
**unrounded** value — is `False`; hence `passed == (percentage >= 60)`
fails for the returned `percentage`. -/
theorem calculate_score_rounding_cex :
    (calculate_score roundingAnswers roundingQuiz).percentage = 60 ∧
    (calculate_score roundingAnswers roundingQuiz).passed = false := by
  with_unfolding_all decide

/-- C2 (amended): `calculate_score` is a pure function (two calls on the
same pair give the same result); `0 ≤ score ≤ total`;
`percentage == round(score/total*100, 1)` when `total > 0` and `0` when
`total == 0`; and `passed == (score/total*100 >= 60)` — the comparison is
made on the *unrounded* percentage, which differs from
`percentage >= 60` exactly when `score/total*100` lies in `[59.95, 60)`. -/
theorem calculate_score_c2 (ua : List (ℕ × ℤ)) (quiz : Quiz) :
    calculate_score ua quiz = calculate_score ua quiz ∧
    (calculate_score ua quiz).score ≤ (calculate_score ua quiz).total ∧
    (calculate_score ua quiz).total = quiz.questions.length ∧
    (calculate_score ua quiz).percentage =
      (if 0 < (calculate_score ua quiz).total then
        pyRound1 (((calculate_score ua quiz).score : ℚ)
          / ((calculate_score ua quiz).total : ℚ) * 100)
      else 0) ∧
    (calculate_score ua quiz).passed =
      decide (60 ≤ (if 0 < (calculate_score ua quiz).total then
        ((calculate_score ua quiz).score : ℚ)
          / ((calculate_score ua quiz).total : ℚ) * 100
      else (0 : ℚ))) := by
  rw [calculate_score_eq]
  split
  · refine ⟨rfl, by simp, rfl, ?_, ?_⟩
    · split
      · simp [pyRound1_zero]
      · rfl
    · split <;> norm_num
  · rename_i h
    have hq : 0 < quiz.questions.length := by
      rcases hl : quiz.questions with - | ⟨a, l⟩
      · simp [hl] at h
      · simp [hl]
    refine ⟨rfl, scoreLoop_count_le ua quiz.questions 0, rfl, ?_, ?_⟩
    · simp [if_pos hq]
    · simp [if_pos hq]

/-- C3 counterexample: for the empty answers dict and a one-question quiz
the falsy-dict guard returns an empty `results` list, not one entry per
question index. -/
theorem calculate_score_results_cex :
    sampleQuiz.questions.length = 1 ∧
    (calculate_score [] sampleQuiz).results = [] := by
  decide

/-- C3 (amended): for every quiz with non-empty questions and every
**non-empty** `user_answers` mapping, `results` has exactly one entry per
question index `i`, recording the question's options, its
`correct_answer`, the answer looked up at key `str(i)` (`None` when
missing), and `is_correct` true exactly when the looked-up answer equals
the correct answer (a missing answer compares unequal to an integer
`correct_answer`, so it simply counts as wrong). -/
theorem calculate_score_results_c3 (ua : List (ℕ × ℤ)) (quiz : Quiz)
    (hua : ua ≠ []) (hq : quiz.questions ≠ []) :
    (calculate_score ua quiz).results.length = quiz.questions.length ∧
    (∀ i q, quiz.questions.get? i = some q →
      (calculate_score ua quiz).results.get? i = some
        { question_index := i
          question := q.question
          user_answer := lookupAnswer ua i
          correct_answer := q.correct_answer
          is_correct := decide (lookupAnswer ua i = q.correct_answer)
          options := q.options }) ∧
    (∀ i e, (calculate_score ua quiz).results.get? i = some e →
      (e.is_correct = true ↔ e.user_answer = e.correct_answer)) := by
  have hguard : (ua.isEmpty || quiz.questions.isEmpty) = false := by
    simp [List.isEmpty_iff, hua, hq]
  rw [calculate_score_eq, if_neg (by simp [hguard])]
  refine ⟨scoreLoop_results_length ua quiz.questions 0, ?_, ?_⟩
  · intro i q hget
    rw [scoreLoop_results_get? ua quiz.questions 0 i, hget]
    simp
  · intro i e hget
    rw [scoreLoop_results_get? ua quiz.questions 0 i] at hget
    rcases hq' : quiz.questions.get? i with - | q
    · rw [hq'] at hget; simp at hget
    · rw [hq'] at hget
      simp only [Option.map_some', Option.some.injEq] at hget
      subst hget
      simp

/-- Witness for C3 at `user_answers = {"0": 1}` and the one-question quiz
(the single answer is wrong, and the entry records exactly that). -/
theorem calculate_score_results_c3_witness :
    [((0 : ℕ), (1 : ℤ))] ≠ ([] : List (ℕ × ℤ)) ∧ sampleQuiz.questions ≠ [] ∧
    (calculate_score [(0, 1)] sampleQuiz).results.length = sampleQuiz.questions.length ∧
    (calculate_score [(0, 1)] sampleQuiz).results.get? 0 = some
      { question_index := 0
        question := sampleQuestion.question
        user_answer := lookupAnswer [(0, 1)] 0
        correct_answer := sampleQuestion.correct_answer
        is_correct := decide (lookupAnswer [(0, 1)] 0 = sampleQuestion.correct_answer)
        options := sampleQuestion.options } := by
  have h := calculate_score_results_c3 [(0, 1)] sampleQuiz (by decide) (by decide)
  exact ⟨by decide, by decide, h.1, h.2.1 0 sampleQuestion rfl⟩

/-! ### Quiz parsing lemmas -/

theorem letterIndex_bounds {l : List Char} {v : ℤ} (h : letterIndex l = some v) :
    0 ≤ v ∧ v < 4 := by
  unfold letterIndex at h
  split_ifs at h <;> simp_all <;> omega

theorem correctStep_bounds {acc : Option ℤ} (line : List Char)
    (h : acc = none ∨ ∃ v, acc = some v ∧ 0 ≤ v ∧ v < 4) :
    correctStep acc line = none ∨
      ∃ v, correctStep acc line = some v ∧ 0 ≤ v ∧ v < 4 := by
  unfold correctStep
  split
  · rcases hL : letterIndex ((pyStrip ((splitOnChar ':' line).getD 1 [])).map Char.toUpper)
      with - | k
    · simpa [hL] using h
    · simp only [hL]
      exact Or.inr ⟨k, rfl, letterIndex_bounds hL⟩
  · exact h

theorem foldl_correctStep_bounds :
    ∀ (lines : List (List Char)) (acc : Option ℤ),
      (acc = none ∨ ∃ v, acc = some v ∧ 0 ≤ v ∧ v < 4) →
      (lines.foldl correctStep acc = none ∨
        ∃ v, lines.foldl correctStep acc = some v ∧ 0 ≤ v ∧ v < 4)
  | [], _, h => h
  | l :: ls, _acc, h => foldl_correctStep_bounds ls _ (correctStep_bounds l h)

theorem correctFold_bounds (lines : List (List Char)) :
    correctFold lines = none ∨ ∃ v, correctFold lines = some v ∧ 0 ≤ v ∧ v < 4 :=
  foldl_correctStep_bounds lines none (Or.inl rfl)

/-- Any question accepted by the block parser has exactly 4 options and a
correct index among `{0,1,2,3}` (the letter map). -/
theorem parseBlock_some {b : List Char} {q : QuizQuestion} (h : parseBlock b = some q) :
    q.options.length = 4 ∧ ∃ v : ℤ, q.correct_answer = some v ∧ 0 ≤ v ∧ v < 4 := by
  unfold parseBlock at h
  simp only at h
  split at h
  · simp at h
  · split at h
    · rename_i hcond
      obtain ⟨hlen4, hsome⟩ := hcond
      rcases correctFold_bounds (((splitOnChar '\n' (pyStrip b)).map pyStrip).filter (· ≠ []))
        with hnone | ⟨v, hv, h0, h4⟩
      · rw [hnone] at hsome
        simp at hsome
      · obtain rfl := Option.some.inj h
        exact ⟨by simpa using hlen4, v, by simpa using hv, h0, h4⟩
    · simp at h

/-- The indexed block loop accepts at most `5 - i` more questions. -/
theorem parseBlocksLoop_length_le :
    ∀ (bs : List (List Char)) (i : ℕ), (parseBlocksLoop bs i).length ≤ 5 - i
  | [], i => by simp [parseBlocksLoop]
  | b :: bs, i => by
    have h := parseBlocksLoop_length_le bs (i + 1)
    unfold parseBlocksLoop
    split
    · simp
    · rename_i hi
      rcases hp : parseBlock b with - | q
      · simpa using le_trans h (by omega)
      · simp only [List.length_cons]
        omega

theorem parseBlocksLoop_mem :
    ∀ {bs : List (List Char)} {i : ℕ} {q : QuizQuestion},
      q ∈ parseBlocksLoop bs i → ∃ b, parseBlock b = some q := by
  intro bs
  induction bs with
  | nil => intro i q h; simp [parseBlocksLoop] at h
  | cons b bs ih =>
    intro i q h
    unfold parseBlocksLoop at h
    split at h
    · simp at h
    · rcases hp : parseBlock b with - | q'
      · rw [hp] at h
        exact ih h
      · rw [hp] at h
        rcases List.mem_cons.mp h with rfl | h'
        · exact ⟨b, hp⟩
        · exact ih h'

theorem create_fallback_questions_ok :
    ∀ q ∈ create_fallback_questions,
      q.options.length = 4 ∧ ∃ v : ℤ, q.correct_answer = some v ∧ 0 ≤ v ∧ v < 4 := by
  intro q hq
  rcases List.mem_cons.mp hq with rfl | hq'
  · exact ⟨rfl, 0, rfl, by omega⟩
  · rcases List.mem_cons.mp hq' with rfl | hq''
    · exact ⟨rfl, 0, rfl, by omega⟩
    · rcases List.mem_cons.mp hq'' with rfl | hq3
      · exact ⟨rfl, 0, rfl, by omega⟩
      · simp at hq3

/-- C1: for every transcript, every `num_questions ≤ 5` and every LLM
outcome (any response string, or an exception), `generate_quiz` returns a
quiz whose `total_questions` is between 1 and 5 and in which every
question has exactly 4 options and a `correct_answer` in `{0,1,2,3}`: the
parser accepts a block only with exactly 4 options and a valid letter, at
most the first 5 blocks are examined, and the 3-question fallback covers
the empty-parse and exception paths. -/
theorem generate_quiz_c1 (transcript title : String) (num_questions : ℕ)
    (_hn : num_questions ≤ 5) (llm : Except Unit String) :
    1 ≤ (generate_quiz transcript title num_questions llm).total_questions ∧
    (generate_quiz transcript title num_questions llm).total_questions ≤ 5 ∧
    ∀ q ∈ (generate_quiz transcript title num_questions llm).questions,
      q.options.length = 4 ∧ ∃ v : ℤ, q.correct_answer = some v ∧ 0 ≤ v ∧ v < 4 := by
  cases llm with
  | error e =>
    refine ⟨by norm_num [generate_quiz, create_fallback_quiz, mkQuiz, create_fallback_questions],
      by norm_num [generate_quiz, create_fallback_quiz, mkQuiz, create_fallback_questions], ?_⟩
    intro q hq
    exact create_fallback_questions_ok q hq
  | ok response =>
    unfold generate_quiz mkQuiz parse_quiz_response
    simp only
    split
    · refine ⟨by norm_num [create_fallback_questions],
        by norm_num [create_fallback_questions], ?_⟩
      intro q hq
      exact create_fallback_questions_ok q hq
    · rename_i hne
      refine ⟨?_, ?_, ?_⟩
      · rcases hl : parseBlocksLoop ((splitMarkers response.data).drop 1) 0 with - | ⟨a, l⟩
        · exact absurd hl hne
        · simp [hl]
      · simpa using parseBlocksLoop_length_le ((splitMarkers response.data).drop 1) 0
      · intro q hq
        obtain ⟨b, hb⟩ := parseBlocksLoop_mem hq
        exact parseBlock_some hb

/-- Witness for C1: `num_questions = 3 ≤ 5` with the empty LLM response
(which parses to no blocks and falls back). -/
theorem generate_quiz_c1_witness :
    3 ≤ 5 ∧
    (1 ≤ (generate_quiz "" "t" 3 (Except.ok "")).total_questions ∧
      (generate_quiz "" "t" 3 (Except.ok "")).total_questions ≤ 5 ∧
      ∀ q ∈ (generate_quiz "" "t" 3 (Except.ok "")).questions,
        q.options.length = 4 ∧ ∃ v : ℤ, q.correct_answer = some v ∧ 0 ≤ v ∧ v < 4) :=
  ⟨by omega, generate_quiz_c1 "" "t" 3 (by omega) (Except.ok "")⟩

/-! ### Shuffle lemmas -/

theorem optionsWithCorrectness_map_fst :
    ∀ (opts : List String) (i : ℕ) (c : Option ℤ),
      (optionsWithCorrectness opts i c).map Prod.fst = opts
  | [], _, _ => rfl
  | o :: rest, i, c => by
    simp [optionsWithCorrectness, optionsWithCorrectness_map_fst rest (i + 1) c]

theorem extractShuffled_fst :
    ∀ (l : List (String × Bool)) (i : ℕ), (extractShuffled l i).1 = l.map Prod.fst
  | [], _ => rfl
  | (o, ic) :: rest, i => by
    simp [extractShuffled, extractShuffled_fst rest (i + 1)]

theorem extractShuffled_none :
    ∀ (l : List (String × Bool)) (i : ℕ),
      l.filter (fun p => p.2) = [] → (extractShuffled l i).2 = none
  | [], _, _ => rfl
  | (o, ic) :: rest, i, h => by
    by_cases hic : ic
    · simp [hic] at h
    · have hb : ic = false := by simpa using hic
      have h' : rest.filter (fun p => p.2) = [] := by simpa [hb] using h
      simp [extractShuffled, extractShuffled_none rest (i + 1) h', hb]

/-- When exactly one tuple is flagged correct, the extraction loop ends with
`new_correct_answer` at that tuple's position. -/
theorem extractShuffled_singleton :
    ∀ (l : List (String × Bool)) (i : ℕ) (x : String × Bool),
      l.filter (fun p => p.2) = [x] →
      ∃ j, (extractShuffled l i).2 = some (i + j) ∧ l.get? j = some x
  | [], i, x, h => by simp at h
  | (o, ic) :: rest, i, x, h => by
    by_cases hic : ic
    · have hb : ic = true := by simpa using hic
      rw [hb] at h
      rw [List.filter_cons_of_pos (by simp)] at h
      obtain ⟨rfl, hrest⟩ : (o, true) = x ∧ rest.filter (fun p => p.2) = [] := by
        constructor
        · exact (List.cons_eq_cons.mp h).1
        · exact (List.cons_eq_cons.mp h).2
      have hr := extractShuffled_none rest (i + 1) hrest
      refine ⟨0, ?_, by simp [hb]⟩
      simp [extractShuffled, hr, hb]
    · have hb : ic = false := by simpa using hic
      have h' : rest.filter (fun p => p.2) = [x] := by simpa [hb] using h
      obtain ⟨j, hj, hg⟩ := extractShuffled_singleton rest (i + 1) x h'
      refine ⟨j + 1, ?_, by simpa using hg⟩
      have hij : i + 1 + j = i + (j + 1) := by omega
      simp [extractShuffled, hj, hb, hij]

theorem shuffle_correct_aux (perm : List (String × Bool) → List (String × Bool))
    (hperm : ∀ l, List.Perm (perm l) l) (qq expl : String) (opts : List String)
    (corr : Option ℤ) (x : String)
    (hfil : (optionsWithCorrectness opts 0 corr).filter (fun p => p.2) = [(x, true)]) :
    ∃ j : ℕ,
      (shuffle_question perm
        { question := qq, options := opts, correct_answer := corr,
          explanation := expl }).correct_answer = some (j : ℤ) ∧
      (shuffle_question perm
        { question := qq, options := opts, correct_answer := corr,
          explanation := expl }).options.get? j = some x := by
  have hfil' : (perm (optionsWithCorrectness opts 0 corr)).filter (fun p => p.2)
      = [(x, true)] :=
    List.perm_singleton.mp (((hperm _).filter _).trans (by rw [hfil]))
  obtain ⟨j, hj, hg⟩ := extractShuffled_singleton _ 0 (x, true) hfil'
  refine ⟨j, ?_, ?_⟩
  · simp [shuffle_question, hj]
  · rw [show (shuffle_question perm
        { question := qq, options := opts, correct_answer := corr,
          explanation := expl }).options
        = (perm (optionsWithCorrectness opts 0 corr)).map Prod.fst from by
        simp [shuffle_question, extractShuffled_fst]]
    rw [List.get?_map, hg]
    rfl

/-- Per-question correctness of the shuffle: for a valid 4-option question
the shuffled question keeps text and explanation, permutes the options, and
the option at the new correct index is the input's correct option. -/
theorem shuffle_question_spec (perm : List (String × Bool) → List (String × Bool))
    (hperm : ∀ l, List.Perm (perm l) l) (q : QuizQuestion)
    (hlen : q.options.length = 4) (c : ℕ)
    (hc : q.correct_answer = some (c : ℤ)) (hc4 : c < 4) :
    (shuffle_question perm q).question = q.question ∧
    (shuffle_question perm q).explanation = q.explanation ∧
    List.Perm (shuffle_question perm q).options q.options ∧
    ∃ j : ℕ, (shuffle_question perm q).correct_answer = some (j : ℤ) ∧
      (shuffle_question perm q).options.get? j = q.options.get? c := by
  obtain ⟨qq, opts, corr, expl⟩ := q
  simp only at hlen hc ⊢
  subst hc
  obtain ⟨a, b, d, e, rfl⟩ : ∃ a b d e, opts = [a, b, d, e] := by
    rcases opts with - | ⟨a, - | ⟨b, - | ⟨d, - | ⟨e, - | ⟨f, t⟩⟩⟩⟩⟩ <;>
      simp at hlen
    exact ⟨a, b, d, e, rfl⟩
  have hPermOpts :
      List.Perm (shuffle_question perm
        { question := qq, options := [a, b, d, e], correct_answer := some (c : ℤ),
          explanation := expl }).options [a, b, d, e] := by
    rw [show (shuffle_question perm
        { question := qq, options := [a, b, d, e], correct_answer := some (c : ℤ),
          explanation := expl }).options
        = (perm (optionsWithCorrectness [a, b, d, e] 0 (some (c : ℤ)))).map Prod.fst from by
        simp [shuffle_question, extractShuffled_fst]]
    have h1 := (hperm (optionsWithCorrectness [a, b, d, e] 0 (some (c : ℤ)))).map Prod.fst
    rwa [optionsWithCorrectness_map_fst] at h1
  refine ⟨rfl, rfl, hPermOpts, ?_⟩
  interval_cases c
  · obtain ⟨j, hcorr, hget⟩ := shuffle_correct_aux perm hperm qq expl [a, b, d, e]
      (some ((0 : ℕ) : ℤ)) a (by norm_num [optionsWithCorrectness])
    exact ⟨j, hcorr, by rw [hget]; rfl⟩
  · obtain ⟨j, hcorr, hget⟩ := shuffle_correct_aux perm hperm qq expl [a, b, d, e]
      (some ((1 : ℕ) : ℤ)) b (by norm_num [optionsWithCorrectness])
    exact ⟨j, hcorr, by rw [hget]; rfl⟩
  · obtain ⟨j, hcorr, hget⟩ := shuffle_correct_aux perm hperm qq expl [a, b, d, e]
      (some ((2 : ℕ) : ℤ)) d (by norm_num [optionsWithCorrectness])
    exact ⟨j, hcorr, by rw [hget]; rfl⟩
  · obtain ⟨j, hcorr, hget⟩ := shuffle_correct_aux perm hperm qq expl [a, b, d, e]
      (some ((3 : ℕ) : ℤ)) e (by norm_num [optionsWithCorrectness])
    exact ⟨j, hcorr, by rw [hget]; rfl⟩

/-- C10: for every permutation behaviour of `random.shuffle` and every quiz
whose questions each have 4 options and a valid correct index,
`shuffle_quiz_options` keeps the title and the number of questions,
`total_questions` equals the number of questions (the `__post_init__`
override), and each output question's options are a permutation of the
input's with the option at the new `correct_answer` index equal to the
input's correct option. -/
theorem shuffle_quiz_options_c10 (perm : List (String × Bool) → List (String × Bool))
    (hperm : ∀ l, List.Perm (perm l) l) (quiz : Quiz)
    (hq : ∀ q ∈ quiz.questions,
      q.options.length = 4 ∧ ∃ c : ℕ, q.correct_answer = some (c : ℤ) ∧ c < 4) :
    (shuffle_quiz_options perm quiz).title = quiz.title ∧
    (shuffle_quiz_options perm quiz).questions.length = quiz.questions.length ∧
    (shuffle_quiz_options perm quiz).total_questions
      = (shuffle_quiz_options perm quiz).questions.length ∧
    ∀ i qi, quiz.questions.get? i = some qi →
      ∃ qo, (shuffle_quiz_options perm quiz).questions.get? i = some qo ∧
        qo.question = qi.question ∧
        List.Perm qo.options qi.options ∧
        ∃ c j : ℕ, qi.correct_answer = some (c : ℤ) ∧
          qo.correct_answer = some (j : ℤ) ∧
          qo.options.get? j = qi.options.get? c := by
  refine ⟨rfl, by simp [shuffle_quiz_options, mkQuiz],
    by simp [shuffle_quiz_options, mkQuiz], ?_⟩
  intro i qi hget
  have hmem : qi ∈ quiz.questions := List.get?_mem hget
  obtain ⟨hlen, c, hc, hc4⟩ := hq qi hmem
  obtain ⟨hquest, hexpl, hpermopts, j, hcorr, hgetj⟩ :=
    shuffle_question_spec perm hperm qi hlen c hc hc4
  refine ⟨shuffle_question perm qi, ?_, hquest, hpermopts, c, j, hc, hcorr, hgetj⟩
  show (quiz.questions.map (shuffle_question perm)).get? i = some (shuffle_question perm qi)
  rw [List.get?_map, hget]
  rfl

/-- Witness for C10: the identity permutation on the one-question quiz. -/
theorem shuffle_quiz_options_c10_witness :
    (∀ l : List (String × Bool), List.Perm (id l) l) ∧
    (∀ q ∈ sampleQuiz.questions,
      q.options.length = 4 ∧ ∃ c : ℕ, q.correct_answer = some (c : ℤ) ∧ c < 4) ∧
    ((shuffle_quiz_options id sampleQuiz).title = sampleQuiz.title ∧
      (shuffle_quiz_options id sampleQuiz).questions.length = sampleQuiz.questions.length ∧
      (shuffle_quiz_options id sampleQuiz).total_questions
        = (shuffle_quiz_options id sampleQuiz).questions.length ∧
      ∀ i qi, sampleQuiz.questions.get? i = some qi →
        ∃ qo, (shuffle_quiz_options id sampleQuiz).questions.get? i = some qo ∧
          qo.question = qi.question ∧
          List.Perm qo.options qi.options ∧
          ∃ c j : ℕ, qi.correct_answer = some (c : ℤ) ∧
            qo.correct_answer = some (j : ℤ) ∧
            qo.options.get? j = qi.options.get? c) := by
  have hp : ∀ l : List (String × Bool), List.Perm (id l) l := fun l => List.Perm.refl l
  have hq : ∀ q ∈ sampleQuiz.questions,
      q.options.length = 4 ∧ ∃ c : ℕ, q.correct_answer = some (c : ℤ) ∧ c < 4 := by
    intro q hql
    have hqs : q = sampleQuestion := by simpa [sampleQuiz, mkQuiz] using hql
    subst hqs
    exact ⟨rfl, 0, rfl, by omega⟩
  exact ⟨hp, hq, shuffle_quiz_options_c10 id hp sampleQuiz hq⟩
